import Mathlib

/-!
Formal model of the p5-mv-renderer sketches.

The analyzer sketch (src/analyzer.js) samples a live audio signal once per
draw tick and accumulates Feature Samples into a Metadata Track, which is
serialized by `saveAudioData`.  The renderer sketch (src/renderer.js, and the
second renderer variant with identical draw logic) replays a loaded track one
sample per tick into a capture engine.

State components mirror the JavaScript module-level variables.  The p5
environment is made explicit: `frameCount` is p5's frame counter, incremented
immediately before each invocation of `draw` (so the first draw after a reset
to 0 observes the value 1); `looping` models whether the p5 loop is running
(`noLoop()` sets it to false, after which no further draw calls occur).  The
sound object's externally visible state (`isPlaying()` / `isPaused()`) is the
`SoundSt` field; the natural end of the audio asset is the external event
`audioEnd`.  Audio-engine readings delivered at a tick (amplitude level, band
energies, full spectrum) are an input `Feat` of the tick event.  Arithmetic on
sample magnitudes is modelled with exact rationals.
-/

/-- External audio-engine readings available at one draw tick:
`amplitude.getLevel()`, `fft.getEnergy("bass" | "mid" | "treble")`,
`fft.analyze()`. -/
structure Feat where
  level : Rat
  bass : Rat
  mid : Rat
  treble : Rat
  fullSpectrum : List Rat
deriving DecidableEq

/-- One Feature Sample, as pushed by `collectAudioData` in src/analyzer.js:
`{ frame, level, bass, mid, treble, fullSpectrum }`. -/
structure Sample where
  frame : Nat
  level : Rat
  bass : Rat
  mid : Rat
  treble : Rat
  fullSpectrum : List Rat
deriving DecidableEq

/-- The serialized Metadata Track artifact:
`{ targetFps, durationInFrames, data }` as built in `saveAudioData`. -/
structure Track where
  targetFps : Nat
  durationInFrames : Nat
  data : List Sample
deriving DecidableEq

/-- `const TARGET_FPS = 60` in src/analyzer.js. -/
def TARGET_FPS : Nat := 60

/-- Playback state of the p5 sound object: `sound.isPlaying()` is true exactly
in `playing`; `sound.isPaused()` is true exactly in `paused`. -/
inductive SoundSt where
  | playing
  | paused
  | stopped
deriving DecidableEq

/-- Analyzer sketch state: the module-level variables of src/analyzer.js
(`audioData`, `isPlaying`, `hasFinished`, `isSaving`), p5's `frameCount` and
loop flag, the sound object's playback state, and the list of artifacts
emitted through `p.saveJSON` (in emission order). `isReady` is taken as true:
we model the session after a successful `setup`. -/
structure AnalyzerState where
  frameCount : Nat
  audioData : List Sample
  isPlaying : Bool
  hasFinished : Bool
  isSaving : Bool
  sound : SoundSt
  looping : Bool
  artifacts : List Track
deriving DecidableEq

/-- State after a successful `setup`: nothing collected, not playing, sound
loaded but not started, loop running. -/
def initAnalyzer : AnalyzerState :=
  { frameCount := 0
    audioData := []
    isPlaying := false
    hasFinished := false
    isSaving := false
    sound := SoundSt.stopped
    looping := true
    artifacts := [] }

/-- `collectAudioData` in src/analyzer.js: pushes one sample whose `frame`
field is the current `p.frameCount`. -/
def collectAudioData (s : AnalyzerState) (f : Feat) : AnalyzerState :=
  { s with audioData := s.audioData ++
      [{ frame := s.frameCount
         level := f.level
         bass := f.bass
         mid := f.mid
         treble := f.treble
         fullSpectrum := f.fullSpectrum }] }

/-- `saveAudioData` in src/analyzer.js: no-op when already saving or when no
data was collected; otherwise stops playback (if playing), emits the artifact
with `durationInFrames = audioData.length`, and marks the session finished. -/
def saveAudioData (s : AnalyzerState) : AnalyzerState :=
  if s.isSaving = true ∨ s.audioData.length = 0 then s
  else
    { s with
      isSaving := true
      isPlaying := false
      sound := if s.sound = SoundSt.playing then SoundSt.stopped else s.sound
      artifacts := s.artifacts ++
        [{ targetFps := TARGET_FPS
           durationInFrames := s.audioData.length
           data := s.audioData }]
      hasFinished := true }

/-- One invocation of `p.draw` in src/analyzer.js, preceded by p5's increment
of `frameCount`; `f` is the audio engine's reading at this tick.  When the
loop has been stopped by `noLoop()` the draw never runs.  The finished branch
draws the status message and calls `p.noLoop()`.  While playing, one sample is
collected, then the end condition
`!sound.isPlaying() && isPlaying && !isSaving && audioData.length > 10`
triggers the auto-save. -/
def drawTick (s : AnalyzerState) (f : Feat) : AnalyzerState :=
  if s.looping = false then s
  else
    let s1 := { s with frameCount := s.frameCount + 1 }
    if s1.hasFinished = true then { s1 with looping := false }
    else if s1.isPlaying = false then s1
    else
      let s2 := collectAudioData s1 f
      if s2.sound ≠ SoundSt.playing ∧ s2.isPlaying = true ∧ s2.isSaving = false ∧
          10 < s2.audioData.length then
        saveAudioData s2
      else s2

/-- `p.mousePressed` in src/analyzer.js: ignored once finished; when not
playing, resets `p.frameCount` to 0, starts the sound and enters playback. -/
def mousePressed (s : AnalyzerState) : AnalyzerState :=
  if s.hasFinished = true then s
  else if s.isPlaying = false then
    { s with frameCount := 0, sound := SoundSt.playing, isPlaying := true }
  else s

/-- `togglePlayback` in src/analyzer.js (key "p"): ignored once finished;
pauses the sound when it is playing, otherwise plays it. -/
def togglePlayback (s : AnalyzerState) : AnalyzerState :=
  if s.hasFinished = true then s
  else if s.sound = SoundSt.playing then
    { s with sound := SoundSt.paused, isPlaying := false }
  else
    { s with sound := SoundSt.playing, isPlaying := true }

/-- The audio asset reaches its natural end: the sound object passes from
playing to stopped.  External event, no sketch code runs. -/
def audioEnded (s : AnalyzerState) : AnalyzerState :=
  if s.sound = SoundSt.playing then { s with sound := SoundSt.stopped } else s

/-- Events driving an analyzer session: a draw tick carrying the engine's
reading, a mouse press, the "p" and "s" keys (`p.keyPressed`), and the natural
end of the audio. -/
inductive AEvent where
  | tick (f : Feat)
  | mouse
  | keyP
  | keyS
  | audioEnd
deriving DecidableEq

/-- Dispatch one event against the analyzer state. -/
def stepA (s : AnalyzerState) : AEvent → AnalyzerState
  | AEvent.tick f => drawTick s f
  | AEvent.mouse => mousePressed s
  | AEvent.keyP => togglePlayback s
  | AEvent.keyS => saveAudioData s
  | AEvent.audioEnd => audioEnded s

/-- Run an analyzer session over a sequence of events. -/
def runA (s : AnalyzerState) : List AEvent → AnalyzerState
  | [] => s
  | e :: es => runA (stepA s e) es

/-- A list of draw-tick events carrying the given engine readings. -/
def ticksOf (fs : List Feat) : List AEvent :=
  fs.map AEvent.tick

/-!
Renderer model.  Both renderer variants (src/renderer.js and the second,
async-setup variant) share the same `p.draw` logic; the model below covers
both.  The Visual Mapper is `drawVisuals`; the four computed magnitudes
(circle diameter and three bar heights) are the numeric content of the frame
handed to the capture engine.
-/

/-- The 5-argument form of the p5 library function
`p.map(n, start1, stop1, start2, stop2)`: linear interpolation with no
`withinBounds` flag, hence no clamping. -/
def p5map (n start1 stop1 start2 stop2 : Rat) : Rat :=
  start2 + (stop2 - start2) * ((n - start1) / (stop1 - start1))

/-- `clamp(m, lo, hi)` as the spec writes it. -/
def clamp (m lo hi : Rat) : Rat :=
  max lo (min m hi)

/-- Modelled from the spec wording of the Visual Mapper contract (for
comparison with the code's `p5map`): linear map of a band magnitude with the
input clamped to its domain,
`outLo + (clamp(m, lo, hi) - lo) / (hi - lo) * (outHi - outLo)`. -/
def specClampedMap (m lo hi outLo outHi : Rat) : Rat :=
  outLo + (clamp m lo hi - lo) / (hi - lo) * (outHi - outLo)

/-- `CANVAS_HEIGHT` in the renderer sketches. -/
def CANVAS_HEIGHT : Nat := 1080

/-- The numeric content of one rendered frame: the sizes computed by
`drawVisuals` from a Feature Sample. -/
structure VisualFrame where
  circleSize : Rat
  bassHeight : Rat
  midHeight : Rat
  trebleHeight : Rat
deriving DecidableEq

/-- `drawVisuals` in src/renderer.js (numeric content):
`circleSize = p.map(level, 0, 1, 150, p.height * 0.8)` and the three bar
heights `p.map(band, 0, 255, 0, p.height * 0.9)`. -/
def drawVisuals (s : Sample) : VisualFrame :=
  { circleSize := p5map s.level 0 1 150 ((CANVAS_HEIGHT : Rat) * (8 / 10))
    bassHeight := p5map s.bass 0 255 0 ((CANVAS_HEIGHT : Rat) * (9 / 10))
    midHeight := p5map s.mid 0 255 0 ((CANVAS_HEIGHT : Rat) * (9 / 10))
    trebleHeight := p5map s.treble 0 255 0 ((CANVAS_HEIGHT : Rat) * (9 / 10)) }

/-- Renderer sketch state: p5's `frameCount` and loop flag, `hasFinished`,
the frames submitted to the capture engine via `capturer.capture` (in
submission order), whether `capturer.save()` has produced the output
artifact, and the frame indices reported by the missing-sample
`console.warn`.  The loaded track (`audioInfo`) is a parameter of the step
function, read-only for the session's lifetime. -/
structure RenderState where
  frameCount : Nat
  hasFinished : Bool
  looping : Bool
  captured : List VisualFrame
  saved : Bool
  warned : List Nat
deriving DecidableEq

/-- Renderer state after a successful `setup` with the track loaded. -/
def initRender : RenderState :=
  { frameCount := 0
    hasFinished := false
    looping := true
    captured := []
    saved := false
    warned := [] }

/-- `finishRendering` in src/renderer.js: idempotent; stops the loop and has
the capture engine persist its artifact. -/
def finishRendering (s : RenderState) : RenderState :=
  if s.hasFinished = true then s
  else { s with hasFinished := true, looping := false, saved := true }

/-- One invocation of `p.draw` in src/renderer.js against the loaded track
`t`, preceded by p5's increment of `frameCount`.  `frameIndex = frameCount - 1`
(p5's counter is 1-based inside draw); completion when
`frameIndex >= durationInFrames`; a missing `data[frameIndex]` logs the index
and finishes early; otherwise the mapped frame is submitted for capture. -/
def renderTick (t : Track) (s : RenderState) : RenderState :=
  if s.looping = false then s
  else
    let s1 := { s with frameCount := s.frameCount + 1 }
    if s1.hasFinished = true then s1
    else
      let frameIndex := s1.frameCount - 1
      if t.durationInFrames ≤ frameIndex then finishRendering s1
      else
        match t.data[frameIndex]? with
        | none => finishRendering { s1 with warned := s1.warned ++ [frameIndex] }
        | some d => { s1 with captured := s1.captured ++ [drawVisuals d] }

/-- Run a render session for `n` ticks of the frame clock. -/
def runR (t : Track) (s : RenderState) : Nat → RenderState
  | 0 => s
  | n + 1 => runR t (renderTick t s) n

/-!
Helper lemmas about analyzer runs.
-/

/-- The sample `collectAudioData` pushes when `p.frameCount` is `fc`. -/
def sampleOf (fc : Nat) (f : Feat) : Sample :=
  { frame := fc
    level := f.level
    bass := f.bass
    mid := f.mid
    treble := f.treble
    fullSpectrum := f.fullSpectrum }

/-- The samples collected by consecutive playing ticks that start with the
frame counter at `fc`: frames `fc + 1, fc + 2, ...`. -/
def samplesFrom (fc : Nat) : List Feat → List Sample
  | [] => []
  | f :: fs => sampleOf (fc + 1) f :: samplesFrom (fc + 1) fs

theorem runA_nil (s : AnalyzerState) : runA s [] = s := rfl

theorem runA_cons (s : AnalyzerState) (e : AEvent) (es : List AEvent) :
    runA s (e :: es) = runA (stepA s e) es := rfl

theorem runA_append (s : AnalyzerState) (es₁ es₂ : List AEvent) :
    runA s (es₁ ++ es₂) = runA (runA s es₁) es₂ := by
  induction es₁ generalizing s with
  | nil => rfl
  | cons e es ih => simp [runA_cons, ih]

/-- While the sound keeps playing, each tick collects exactly one sample,
frames continuing from the current counter, and never triggers the
auto-save. -/
theorem runA_play_ticks (fs : List Feat) (s : AnalyzerState)
    (hl : s.looping = true) (hf : s.hasFinished = false) (hp : s.isPlaying = true)
    (hs : s.sound = SoundSt.playing) :
    runA s (ticksOf fs) =
      { s with frameCount := s.frameCount + fs.length
               audioData := s.audioData ++ samplesFrom s.frameCount fs } := by
  induction fs generalizing s with
  | nil => simp [ticksOf, runA, samplesFrom]
  | cons f fs ih =>
    have hstep : stepA s (AEvent.tick f) =
        { s with frameCount := s.frameCount + 1
                 audioData := s.audioData ++ [sampleOf (s.frameCount + 1) f] } := by
      simp [stepA, drawTick, collectAudioData, hl, hf, hp, hs, sampleOf]
    have hsplit : runA s (ticksOf (f :: fs)) = runA (stepA s (AEvent.tick f)) (ticksOf fs) := rfl
    rw [hsplit, hstep,
      ih { s with frameCount := s.frameCount + 1
                  audioData := s.audioData ++ [sampleOf (s.frameCount + 1) f] } hl hf hp hs]
    simp [samplesFrom, List.append_assoc]
    omega

/-- While not playing, ticks only advance the frame counter. -/
theorem runA_paused_ticks (fs : List Feat) (s : AnalyzerState)
    (hl : s.looping = true) (hf : s.hasFinished = false) (hp : s.isPlaying = false) :
    runA s (ticksOf fs) = { s with frameCount := s.frameCount + fs.length } := by
  induction fs generalizing s with
  | nil => simp [ticksOf, runA]
  | cons f fs ih =>
    have hstep : stepA s (AEvent.tick f) =
        { s with frameCount := s.frameCount + 1 } := by
      simp [stepA, drawTick, hl, hf, hp]
    have hsplit : runA s (ticksOf (f :: fs)) = runA (stepA s (AEvent.tick f)) (ticksOf fs) := rfl
    rw [hsplit, hstep, ih { s with frameCount := s.frameCount + 1 } hl hf hp]
    simp
    omega

/-- The frames of the samples collected from counter `fc` are the contiguous
block `fc + 1, ..., fc + n`. -/
theorem samplesFrom_map_frame (fc : Nat) (fs : List Feat) :
    (samplesFrom fc fs).map Sample.frame = List.range' (fc + 1) fs.length := by
  induction fs generalizing fc with
  | nil => simp [samplesFrom]
  | cons f fs ih => simp [samplesFrom, sampleOf, List.range', ih]

/-!
Helper lemmas about render runs.
-/

theorem runR_zero (t : Track) (s : RenderState) : runR t s 0 = s := rfl

theorem runR_succ (t : Track) (s : RenderState) (n : Nat) :
    runR t s (n + 1) = runR t (renderTick t s) n := rfl

theorem runR_add (t : Track) (s : RenderState) (a b : Nat) :
    runR t s (a + b) = runR t (runR t s a) b := by
  induction a generalizing s with
  | zero => rw [Nat.zero_add, runR_zero]
  | succ a ih =>
    rw [Nat.succ_add, runR_succ, runR_succ, ih]

/-- Once `noLoop()` has run, draw is never invoked again: further frame-clock
ticks leave the state unchanged. -/
theorem runR_noLoop (t : Track) (s : RenderState) (n : Nat) (h : s.looping = false) :
    runR t s n = s := by
  induction n with
  | zero => rfl
  | succ n ih =>
    rw [runR_succ]
    have : renderTick t s = s := by simp [renderTick, h]
    rw [this, ih]

/-- While every upcoming frame index has a sample (and stays below the
declared duration), each tick submits exactly the mapped sample at its index
to the capture engine. -/
theorem runR_capture_ticks (t : Track) (m : Nat) (s : RenderState)
    (hl : s.looping = true) (hf : s.hasFinished = false)
    (hm : s.frameCount + m ≤ t.data.length)
    (hd : t.data.length ≤ t.durationInFrames) :
    runR t s m =
      { s with frameCount := s.frameCount + m
               captured := s.captured ++
                 ((t.data.drop s.frameCount).take m).map drawVisuals } := by
  induction m generalizing s with
  | zero =>
    simp
    rfl
  | succ m ih =>
    have hfc : s.frameCount < t.data.length := by omega
    have hstep : renderTick t s =
        { s with frameCount := s.frameCount + 1
                 captured := s.captured ++ [drawVisuals t.data[s.frameCount]] } := by
      have hnotdone : ¬ t.durationInFrames ≤ s.frameCount := by omega
      have hget : t.data[s.frameCount]? = some t.data[s.frameCount] :=
        List.getElem?_eq_getElem hfc
      simp [renderTick, hl, hf, hnotdone, hget]
    rw [runR_succ, hstep,
      ih { s with frameCount := s.frameCount + 1
                  captured := s.captured ++ [drawVisuals t.data[s.frameCount]] }
        hl hf (by simp; omega)]
    have hdrop : t.data.drop s.frameCount =
        t.data[s.frameCount] :: t.data.drop (s.frameCount + 1) :=
      List.drop_eq_getElem_cons hfc
    rw [hdrop]
    simp [List.append_assoc]
    refine ⟨by omega, ?_⟩
    have hfc2 : s.frameCount < (List.map drawVisuals t.data).length := by
      simpa using hfc
    rw [List.drop_eq_getElem_cons hfc2]
    simp

/-!
Invariants of the artifacts emitted by an analyzer session.  The only place
an artifact is appended is `saveAudioData`, which guards on `isSaving` and on
an empty `audioData` and stamps `durationInFrames` with `audioData.length`.
-/

/-- Every artifact present after a `saveAudioData` call was either already
there or is freshly emitted with `durationInFrames = data.length ≥ 1`. -/
theorem saveAudioData_artifacts_mem (s : AnalyzerState) (t : Track)
    (h : t ∈ (saveAudioData s).artifacts) :
    t ∈ s.artifacts ∨ (t.durationInFrames = t.data.length ∧ 1 ≤ t.durationInFrames) := by
  unfold saveAudioData at h
  split at h
  · exact Or.inl h
  · rename_i hc
    simp only [List.mem_append, List.mem_singleton] at h
    rcases h with h | h
    · exact Or.inl h
    · subst h
      refine Or.inr ⟨rfl, ?_⟩
      simp only [not_or] at hc
      obtain ⟨h1, h2⟩ := hc
      show 1 ≤ s.audioData.length
      omega

/-- One event preserves the artifact invariant. -/
theorem stepA_artifacts_mem (s : AnalyzerState) (e : AEvent) (t : Track)
    (h : t ∈ (stepA s e).artifacts) :
    t ∈ s.artifacts ∨ (t.durationInFrames = t.data.length ∧ 1 ≤ t.durationInFrames) := by
  cases e with
  | tick f =>
    simp only [stepA, drawTick] at h
    split at h
    · exact Or.inl h
    · split at h
      · exact Or.inl h
      · split at h
        · exact Or.inl h
        · split at h
          · rcases saveAudioData_artifacts_mem
                (collectAudioData { s with frameCount := s.frameCount + 1 } f) t h with h' | h'
            · exact Or.inl h'
            · exact Or.inr h'
          · exact Or.inl h
  | mouse =>
    simp only [stepA, mousePressed] at h
    split at h
    · exact Or.inl h
    · split at h
      · exact Or.inl h
      · exact Or.inl h
  | keyP =>
    simp only [stepA, togglePlayback] at h
    split at h
    · exact Or.inl h
    · split at h
      · exact Or.inl h
      · exact Or.inl h
  | keyS => exact saveAudioData_artifacts_mem _ _ h
  | audioEnd =>
    simp only [stepA, audioEnded] at h
    split at h
    · exact Or.inl h
    · exact Or.inl h

/-- Run form of the artifact invariant. -/
theorem runA_artifacts_mem (es : List AEvent) (s : AnalyzerState) (t : Track)
    (h : t ∈ (runA s es).artifacts) :
    t ∈ s.artifacts ∨ (t.durationInFrames = t.data.length ∧ 1 ≤ t.durationInFrames) := by
  induction es generalizing s with
  | nil => exact Or.inl h
  | cons e es ih =>
    rw [runA_cons] at h
    rcases ih (stepA s e) h with h' | h'
    · exact stepA_artifacts_mem s e t h'
    · exact Or.inr h'

/-- `isSaving` counts the emitted artifacts: none before the save, exactly
one after it. -/
def SaveInv (s : AnalyzerState) : Prop :=
  s.artifacts.length = if s.isSaving = true then 1 else 0

theorem saveAudioData_saveInv (s : AnalyzerState) (h : SaveInv s) :
    SaveInv (saveAudioData s) := by
  unfold SaveInv saveAudioData at *
  split
  · exact h
  · rename_i hc
    simp only [not_or] at hc
    simp [hc.1] at h
    simp [h]

theorem stepA_saveInv (s : AnalyzerState) (e : AEvent) (h : SaveInv s) :
    SaveInv (stepA s e) := by
  cases e with
  | tick f =>
    simp only [stepA, drawTick]
    split
    · exact h
    · split
      · exact h
      · split
        · exact h
        · split
          · exact saveAudioData_saveInv _ h
          · exact h
  | mouse =>
    simp only [stepA, mousePressed]
    split
    · exact h
    · split
      · exact h
      · exact h
  | keyP =>
    simp only [stepA, togglePlayback]
    split
    · exact h
    · split
      · exact h
      · exact h
  | keyS => exact saveAudioData_saveInv _ h
  | audioEnd =>
    simp only [stepA, audioEnded]
    split
    · exact h
    · exact h

theorem runA_saveInv (es : List AEvent) (s : AnalyzerState) (h : SaveInv s) :
    SaveInv (runA s es) := by
  induction es generalizing s with
  | nil => exact h
  | cons e es ih => exact ih (stepA s e) (stepA_saveInv s e h)

/-- A second `saveAudioData` on the result of a first one changes nothing. -/
theorem saveAudioData_idem (s : AnalyzerState) :
    saveAudioData (saveAudioData s) = saveAudioData s := by
  by_cases hc : s.isSaving = true ∨ s.audioData.length = 0
  · have h1 : saveAudioData s = s := by rw [saveAudioData, if_pos hc]
    rw [h1, h1]
  · have h2 : (saveAudioData s).isSaving = true := by
      rw [saveAudioData, if_neg hc]
    rw [saveAudioData, if_pos (Or.inl h2)]

/-- A silent audio-engine reading, used for concrete runs. -/
def featZero : Feat :=
  { level := 0, bass := 0, mid := 0, treble := 0, fullSpectrum := [] }

theorem samplesFrom_length (fc : Nat) (fs : List Feat) :
    (samplesFrom fc fs).length = fs.length := by
  induction fs generalizing fc with
  | nil => rfl
  | cons f fs ih => simp [samplesFrom, ih]

/-!
Claim theorems.
-/

/-- Claim C4: every Metadata Track artifact emitted by the analyzer session
(through `finalize`, i.e. the auto-save, or a manual save request) has
`durationInFrames` equal to the length of its `data` sequence, for every
sequence of events. -/
theorem c4_duration_eq_length (es : List AEvent) (t : Track)
    (h : t ∈ (runA initAnalyzer es).artifacts) :
    t.durationInFrames = t.data.length := by
  rcases runA_artifacts_mem es initAnalyzer t h with h' | h'
  · simp [initAnalyzer] at h'
  · exact h'.1

/-- Witness for C4: the run click, one tick, manual save emits the track
with `durationInFrames = 1` and one sample. -/
theorem c4_witness :
    ((⟨60, 1, [sampleOf 1 featZero]⟩ : Track) ∈
      (runA initAnalyzer [AEvent.mouse, AEvent.tick featZero, AEvent.keyS]).artifacts) ∧
    (⟨60, 1, [sampleOf 1 featZero]⟩ : Track).durationInFrames
      = (⟨60, 1, [sampleOf 1 featZero]⟩ : Track).data.length :=
  ⟨by decide, c4_duration_eq_length [AEvent.mouse, AEvent.tick featZero, AEvent.keyS]
    ⟨60, 1, [sampleOf 1 featZero]⟩ (by decide)⟩

/-- Claim C10: every artifact the analyzer actually emits is non-empty
(`durationInFrames ≥ 1`): a save request with zero collected samples is a
no-op, so the zero-duration case allowed by the format is never produced. -/
theorem c10_artifacts_nonempty (es : List AEvent) (t : Track)
    (h : t ∈ (runA initAnalyzer es).artifacts) :
    1 ≤ t.durationInFrames := by
  rcases runA_artifacts_mem es initAnalyzer t h with h' | h'
  · simp [initAnalyzer] at h'
  · exact h'.2

/-- Witness for C10: a two-tick run emits a track of duration 2 ≥ 1. -/
theorem c10_witness :
    ((⟨60, 2, [sampleOf 1 featZero, sampleOf 2 featZero]⟩ : Track) ∈
      (runA initAnalyzer
        [AEvent.mouse, AEvent.tick featZero, AEvent.tick featZero, AEvent.keyS]).artifacts) ∧
    1 ≤ (⟨60, 2, [sampleOf 1 featZero, sampleOf 2 featZero]⟩ : Track).durationInFrames :=
  ⟨by decide, c10_artifacts_nonempty
    [AEvent.mouse, AEvent.tick featZero, AEvent.tick featZero, AEvent.keyS]
    ⟨60, 2, [sampleOf 1 featZero, sampleOf 2 featZero]⟩ (by decide)⟩

/-- Claim C8: saving is idempotent and one-shot: over every event sequence at
most one artifact is ever emitted, and a second `saveAudioData` applied on
top of a first one is a no-op. -/
theorem c8_save_idempotent_one_artifact (es : List AEvent) (s : AnalyzerState) :
    (runA initAnalyzer es).artifacts.length ≤ 1 ∧
    saveAudioData (saveAudioData s) = saveAudioData s := by
  constructor
  · have h := runA_saveInv es initAnalyzer (by rfl)
    unfold SaveInv at h
    split at h <;> omega
  · exact saveAudioData_idem s

/-- Claim C9 (counterexample): calling `start()` (a mouse press) while the
session is already Playing leaves the entire state bit-for-bit unchanged:
`p.mousePressed` falls through its `if (!isPlaying)` guard and returns, with
no error raised, logged, or recorded anywhere.  The claim that an invalid
transition "is signaled immediately as an error and is never silently
ignored" is therefore false: it is exactly a silent no-op. -/
theorem c9_counterexample :
    (runA initAnalyzer [AEvent.mouse]).isPlaying = true ∧
    mousePressed (runA initAnalyzer [AEvent.mouse]) = runA initAnalyzer [AEvent.mouse] := by
  decide

/-- Claim C9 (amended): an invalid `start()` request — a mouse press while the
session is already Playing or already Finished — is silently ignored: the
state is returned unchanged and no error is signaled. -/
theorem c9_amended (s : AnalyzerState)
    (h : s.isPlaying = true ∨ s.hasFinished = true) :
    mousePressed s = s := by
  by_cases hf : s.hasFinished = true
  · rw [mousePressed, if_pos hf]
  · rcases h with hp | hfin
    · rw [mousePressed, if_neg hf, if_neg (by simp [hp])]
    · exact absurd hfin hf

/-- Witness for C9 (amended): applied to the state right after a click. -/
theorem c9_witness :
    ((runA initAnalyzer [AEvent.mouse]).isPlaying = true ∨
      (runA initAnalyzer [AEvent.mouse]).hasFinished = true) ∧
    mousePressed (runA initAnalyzer [AEvent.mouse]) = runA initAnalyzer [AEvent.mouse] :=
  ⟨Or.inl (by decide), c9_amended (runA initAnalyzer [AEvent.mouse]) (Or.inl (by decide))⟩

/-- Claim C1 (counterexample): after click-to-start, one tick, pause via the
"p" key, one paused tick, resume via "p", one more tick and a manual save,
the emitted track has `durationInFrames = 2` but frame values `[1, 3]`.
They do not run from 0 through `durationInFrames - 1` (that would be
`[0, 1]`), and even granting a declared start of 1 they have a gap (the
contiguous two-element block from 1 is `[1, 2]`): `p.frameCount` keeps
advancing during paused draws, so a pause/resume sequence always leaves a
gap. -/
theorem c1_counterexample :
    (runA initAnalyzer [AEvent.mouse, AEvent.tick featZero, AEvent.keyP,
        AEvent.tick featZero, AEvent.keyP, AEvent.tick featZero, AEvent.keyS]).artifacts.map
      (fun t => (t.durationInFrames, t.data.map Sample.frame)) = [(2, [1, 3])] ∧
    ([1, 3] : List Nat) ≠ List.range 2 ∧ ([1, 3] : List Nat) ≠ [1, 2] := by
  decide

/-- Claim C1 (amended): for a session started by a single click and never
paused, the frame values of the emitted track are exactly
`1, 2, ..., durationInFrames` — strictly increasing, no duplicates, no gaps,
but starting at 1 and ending at `durationInFrames`, not at 0 and
`durationInFrames - 1` (p5 increments `frameCount` before the first draw
after the reset to 0).  Pause/resume sequences additionally leave gaps, and
a mouse-click resume resets the counter. -/
theorem c1_amended_frames_contiguous_from_one (fs : List Feat) (h : 0 < fs.length) :
    (runA initAnalyzer (AEvent.mouse :: (ticksOf fs ++ [AEvent.keyS]))).artifacts.map
        (fun t => (t.durationInFrames, t.data.map Sample.frame))
      = [(fs.length, List.range' 1 fs.length)] := by
  have h0 : stepA initAnalyzer AEvent.mouse =
      { frameCount := 0, audioData := [], isPlaying := true, hasFinished := false,
        isSaving := false, sound := SoundSt.playing, looping := true, artifacts := [] } := by
    decide
  rw [runA_cons, h0, runA_append,
    runA_play_ticks fs _ rfl rfl rfl rfl, runA_cons, runA_nil]
  show (saveAudioData _).artifacts.map _ = _
  rw [saveAudioData, if_neg (by simp [samplesFrom_length]; exact List.length_pos.mp h)]
  simp [samplesFrom_length, samplesFrom_map_frame]

/-- Witness for C1 (amended): two ticks emit the track with frames `[1, 2]`. -/
theorem c1_witness :
    0 < ([featZero, featZero] : List Feat).length ∧
    (runA initAnalyzer (AEvent.mouse :: (ticksOf [featZero, featZero] ++ [AEvent.keyS]))).artifacts.map
        (fun t => (t.durationInFrames, t.data.map Sample.frame))
      = [(([featZero, featZero] : List Feat).length,
          List.range' 1 ([featZero, featZero] : List Feat).length)] :=
  ⟨by decide, c1_amended_frames_contiguous_from_one [featZero, featZero] (by decide)⟩

/-- Claim C2 (counterexample): click to start, two ticks (frames 1 and 2
collected), pause via the "p" key, then resume via a mouse click.  The resume
resets `p.frameCount` to 0 — the reset in `p.mousePressed` happens on every
transition from not-playing to playing, not only on the first start — and the
next collected sample carries frame 1 again, so tick numbering does not
continue: the claim that resuming keeps the tick counter is false. -/
theorem c2_counterexample :
    (runA initAnalyzer [AEvent.mouse, AEvent.tick featZero, AEvent.tick featZero,
        AEvent.keyP, AEvent.mouse]).frameCount = 0 ∧
    (runA initAnalyzer [AEvent.mouse, AEvent.tick featZero, AEvent.tick featZero,
        AEvent.keyP, AEvent.mouse, AEvent.tick featZero]).audioData.map Sample.frame
      = [1, 2, 1] := by
  decide

/-- Claim C2 (amended): resuming via the keyboard play/pause toggle (the "p"
key) keeps the tick counter: after a click-start, `n` playing ticks, pause,
`m` paused ticks, resume and one more tick, no Feature Sample was appended
for the paused interval (only one new sample exists beyond the first `n`) and
its frame number is `n + m + 1`, continuing the counter without resetting.
Resuming via a mouse click, however, resets the counter to 0 (see the
counterexample): the code resets on every not-playing-to-playing click, not
only on the Idle-to-Playing transition. -/
theorem c2_amended_keyboard_resume_keeps_counter (fs gs : List Feat) (f : Feat) :
    (runA initAnalyzer (AEvent.mouse :: (ticksOf fs ++
        AEvent.keyP :: (ticksOf gs ++ [AEvent.keyP, AEvent.tick f])))).audioData.map Sample.frame
      = List.range' 1 fs.length ++ [fs.length + gs.length + 1] ∧
    (runA initAnalyzer (AEvent.mouse :: (ticksOf fs ++
        AEvent.keyP :: (ticksOf gs ++ [AEvent.keyP, AEvent.tick f])))).frameCount
      = fs.length + gs.length + 1 := by
  have h0 : stepA initAnalyzer AEvent.mouse =
      { frameCount := 0, audioData := [], isPlaying := true, hasFinished := false,
        isSaving := false, sound := SoundSt.playing, looping := true, artifacts := [] } := by
    decide
  have h1 : stepA
      { frameCount := 0 + fs.length, audioData := [] ++ samplesFrom 0 fs,
        isPlaying := true, hasFinished := false, isSaving := false,
        sound := SoundSt.playing, looping := true, artifacts := [] }
      AEvent.keyP =
      { frameCount := 0 + fs.length, audioData := [] ++ samplesFrom 0 fs,
        isPlaying := false, hasFinished := false, isSaving := false,
        sound := SoundSt.paused, looping := true, artifacts := [] } := rfl
  have h2 : stepA
      { frameCount := 0 + fs.length + gs.length, audioData := [] ++ samplesFrom 0 fs,
        isPlaying := false, hasFinished := false, isSaving := false,
        sound := SoundSt.paused, looping := true, artifacts := [] }
      AEvent.keyP =
      { frameCount := 0 + fs.length + gs.length, audioData := [] ++ samplesFrom 0 fs,
        isPlaying := true, hasFinished := false, isSaving := false,
        sound := SoundSt.playing, looping := true, artifacts := [] } := rfl
  have h3 : stepA
      { frameCount := 0 + fs.length + gs.length, audioData := [] ++ samplesFrom 0 fs,
        isPlaying := true, hasFinished := false, isSaving := false,
        sound := SoundSt.playing, looping := true, artifacts := [] }
      (AEvent.tick f) =
      { frameCount := 0 + fs.length + gs.length + 1,
        audioData := ([] ++ samplesFrom 0 fs) ++
          [sampleOf (0 + fs.length + gs.length + 1) f],
        isPlaying := true, hasFinished := false, isSaving := false,
        sound := SoundSt.playing, looping := true, artifacts := [] } := rfl
  rw [runA_cons, h0, runA_append,
    runA_play_ticks fs _ rfl rfl rfl rfl, runA_cons, h1,
    runA_append, runA_paused_ticks gs _ rfl rfl rfl, runA_cons, h2,
    runA_cons, runA_nil, h3]
  simp [samplesFrom_map_frame, sampleOf]

/-- Claim C3 (counterexample): after click-to-start and two ticks the session
holds 2 collected samples; the audio then reports it has stopped.  On the
next tick — so at least one full tick of stopped state has elapsed, the
session is Playing and not already finalizing — the claim says the session
finalizes, but the code requires `audioData.length > 10`: no artifact is
emitted and the session is not finished. -/
theorem c3_counterexample :
    (runA initAnalyzer [AEvent.mouse, AEvent.tick featZero, AEvent.tick featZero,
        AEvent.audioEnd]).audioData.length = 2 ∧
    (runA initAnalyzer [AEvent.mouse, AEvent.tick featZero, AEvent.tick featZero,
        AEvent.audioEnd]).sound = SoundSt.stopped ∧
    (runA initAnalyzer [AEvent.mouse, AEvent.tick featZero, AEvent.tick featZero,
        AEvent.audioEnd, AEvent.tick featZero]).hasFinished = false ∧
    (runA initAnalyzer [AEvent.mouse, AEvent.tick featZero, AEvent.tick featZero,
        AEvent.audioEnd, AEvent.tick featZero]).artifacts = [] := by
  decide

/-- Claim C3 (amended): on a tick taken while the session is Playing (loop
running, not finished), natural completion fires — the session becomes
finished and exactly one artifact is emitted — exactly when the audio signal
reports it is no longer playing AND the session is not already saving AND the
samples collected so far, including the one this tick collects, number more
than 10.  The "at least one full tick" debounce of the claim is in reality a
more-than-10-samples threshold. -/
theorem c3_amended_completion_condition (s : AnalyzerState) (f : Feat)
    (hl : s.looping = true) (hf : s.hasFinished = false) (hp : s.isPlaying = true) :
    ((drawTick s f).hasFinished = true ∧
      (drawTick s f).artifacts.length = s.artifacts.length + 1) ↔
    (s.sound ≠ SoundSt.playing ∧ s.isSaving = false ∧ 10 < s.audioData.length + 1) := by
  have hcond : ((collectAudioData { s with frameCount := s.frameCount + 1 } f).sound
        ≠ SoundSt.playing ∧
      (collectAudioData { s with frameCount := s.frameCount + 1 } f).isPlaying = true ∧
      (collectAudioData { s with frameCount := s.frameCount + 1 } f).isSaving = false ∧
      10 < (collectAudioData { s with frameCount := s.frameCount + 1 } f).audioData.length) ↔
      (s.sound ≠ SoundSt.playing ∧ s.isSaving = false ∧ 10 < s.audioData.length + 1) := by
    simp [collectAudioData, hp]
  have hD : drawTick s f =
      if s.sound ≠ SoundSt.playing ∧ s.isSaving = false ∧ 10 < s.audioData.length + 1 then
        saveAudioData (collectAudioData { s with frameCount := s.frameCount + 1 } f)
      else collectAudioData { s with frameCount := s.frameCount + 1 } f := by
    simp only [drawTick]
    rw [if_neg (by simp [hl]), if_neg (by simp [hf]), if_neg (by simp [hp])]
    by_cases hC : s.sound ≠ SoundSt.playing ∧ s.isSaving = false ∧ 10 < s.audioData.length + 1
    · rw [if_pos (hcond.mpr hC), if_pos hC]
    · rw [if_neg (fun h => hC (hcond.mp h)), if_neg hC]
  rw [hD]
  by_cases hC : s.sound ≠ SoundSt.playing ∧ s.isSaving = false ∧ 10 < s.audioData.length + 1
  · rw [if_pos hC]
    have hguard : ¬((collectAudioData { s with frameCount := s.frameCount + 1 } f).isSaving
          = true ∨
        (collectAudioData { s with frameCount := s.frameCount + 1 } f).audioData.length = 0) := by
      simp [collectAudioData, hC.2.1]
    constructor
    · intro _; exact hC
    · intro _
      constructor
      · rw [saveAudioData, if_neg hguard]
      · rw [saveAudioData, if_neg hguard]
        simp [collectAudioData]
  · rw [if_neg hC]
    constructor
    · intro hfin
      have : s.hasFinished = true := hfin.1
      rw [hf] at this
      exact absurd this (by simp)
    · intro h; exact absurd h hC

/-- A reachable Playing state holding 11 collected samples whose audio has
just stopped: click-start, 11 ticks, natural audio end. -/
def elevenState : AnalyzerState :=
  runA initAnalyzer (AEvent.mouse ::
    (List.replicate 11 (AEvent.tick featZero) ++ [AEvent.audioEnd]))

/-- Witness for C3 (amended): at `elevenState` the hypotheses hold and the
next tick finalizes, matching the condition. -/
theorem c3_witness :
    (elevenState.looping = true ∧ elevenState.hasFinished = false ∧
      elevenState.isPlaying = true) ∧
    (((drawTick elevenState featZero).hasFinished = true ∧
      (drawTick elevenState featZero).artifacts.length = elevenState.artifacts.length + 1) ↔
      (elevenState.sound ≠ SoundSt.playing ∧ elevenState.isSaving = false ∧
        10 < elevenState.audioData.length + 1)) :=
  ⟨⟨by decide, by decide, by decide⟩,
    c3_amended_completion_condition elevenState featZero (by decide) (by decide) (by decide)⟩

/-- A sample whose bass magnitude 510 lies outside the declared domain
[0, 255]; the other magnitudes are in range. -/
def overloadSample : Sample :=
  { frame := 0, level := 1/2, bass := 510, mid := 0, treble := 0, fullSpectrum := [] }

/-- Claim C5 (counterexample): the renderer calls the 5-argument `p.map`,
which does not clamp.  For bass = 510 (outside the domain [0, 255]) the
computed bar height is 1944, strictly above the top of the output range
[0, 972], while the spec formula with clamping would give 972: an
out-of-domain input produces an out-of-range output instead of being
clamped. -/
theorem c5_counterexample :
    (drawVisuals overloadSample).bassHeight = 1944 ∧
    specClampedMap 510 0 255 0 ((CANVAS_HEIGHT : Rat) * (9 / 10)) = 972 ∧
    (CANVAS_HEIGHT : Rat) * (9 / 10) < (drawVisuals overloadSample).bassHeight ∧
    (drawVisuals overloadSample).bassHeight
      ≠ specClampedMap 510 0 255 0 ((CANVAS_HEIGHT : Rat) * (9 / 10)) := by
  refine ⟨?_, ?_, ?_, ?_⟩ <;>
    norm_num [drawVisuals, p5map, specClampedMap, clamp, CANVAS_HEIGHT, overloadSample]

/-- Claim C5 (amended): the Visual Mapper is linear but performs no clamping;
on inputs inside the declared domains (level in [0, 1], band magnitudes in
[0, 255]) it coincides with the spec's clamped linear formula
`outLo + (clamp(m, lo, hi) - lo) / (hi - lo) * (outHi - outLo)`, but inputs
outside a domain extrapolate linearly and can leave the output range (see
the counterexample). -/
theorem c5_amended_in_domain_linear (s : Sample)
    (h1 : 0 ≤ s.level) (h2 : s.level ≤ 1)
    (h3 : 0 ≤ s.bass) (h4 : s.bass ≤ 255)
    (h5 : 0 ≤ s.mid) (h6 : s.mid ≤ 255)
    (h7 : 0 ≤ s.treble) (h8 : s.treble ≤ 255) :
    drawVisuals s =
      { circleSize := specClampedMap s.level 0 1 150 ((CANVAS_HEIGHT : Rat) * (8 / 10))
        bassHeight := specClampedMap s.bass 0 255 0 ((CANVAS_HEIGHT : Rat) * (9 / 10))
        midHeight := specClampedMap s.mid 0 255 0 ((CANVAS_HEIGHT : Rat) * (9 / 10))
        trebleHeight := specClampedMap s.treble 0 255 0 ((CANVAS_HEIGHT : Rat) * (9 / 10)) } := by
  unfold drawVisuals specClampedMap clamp p5map
  rw [min_eq_left h2, max_eq_right h1, min_eq_left h4, max_eq_right h3,
    min_eq_left h6, max_eq_right h5, min_eq_left h8, max_eq_right h7]
  simp only [VisualFrame.mk.injEq]
  refine ⟨by ring, by ring, by ring, by ring⟩

/-- An in-domain sample for the C5 witness. -/
def inDomainSample : Sample :=
  { frame := 2, level := 1/2, bass := 100, mid := 90, treble := 80, fullSpectrum := [] }

/-- Witness for C5 (amended): evaluated at an in-domain sample. -/
theorem c5_witness :
    (0 ≤ inDomainSample.level ∧ inDomainSample.level ≤ 1 ∧
      0 ≤ inDomainSample.bass ∧ inDomainSample.bass ≤ 255 ∧
      0 ≤ inDomainSample.mid ∧ inDomainSample.mid ≤ 255 ∧
      0 ≤ inDomainSample.treble ∧ inDomainSample.treble ≤ 255) ∧
    drawVisuals inDomainSample =
      { circleSize := specClampedMap inDomainSample.level 0 1 150
          ((CANVAS_HEIGHT : Rat) * (8 / 10))
        bassHeight := specClampedMap inDomainSample.bass 0 255 0
          ((CANVAS_HEIGHT : Rat) * (9 / 10))
        midHeight := specClampedMap inDomainSample.mid 0 255 0
          ((CANVAS_HEIGHT : Rat) * (9 / 10))
        trebleHeight := specClampedMap inDomainSample.treble 0 255 0
          ((CANVAS_HEIGHT : Rat) * (9 / 10)) } :=
  ⟨⟨by norm_num [inDomainSample], by norm_num [inDomainSample],
    by norm_num [inDomainSample], by norm_num [inDomainSample],
    by norm_num [inDomainSample], by norm_num [inDomainSample],
    by norm_num [inDomainSample], by norm_num [inDomainSample]⟩,
    c5_amended_in_domain_linear inDomainSample
      (by norm_num [inDomainSample]) (by norm_num [inDomainSample])
      (by norm_num [inDomainSample]) (by norm_num [inDomainSample])
      (by norm_num [inDomainSample]) (by norm_num [inDomainSample])
      (by norm_num [inDomainSample]) (by norm_num [inDomainSample])⟩

/-- Claim C6: a Render Session loaded with a track whose `durationInFrames`
is 0 finishes on its first tick — `frameIndex = 0` already reaches the
duration check — and no frame is ever submitted to the capture engine, for
any number of subsequent frame-clock ticks; the capture artifact is
finalized. -/
theorem c6_zero_duration_finishes_first_tick (t : Track) (n : Nat)
    (hd : t.durationInFrames = 0) (hn : 1 ≤ n) :
    (runR t initRender n).hasFinished = true ∧
    (runR t initRender n).captured = [] ∧
    (runR t initRender n).saved = true := by
  obtain ⟨m, rfl⟩ : ∃ m, n = 1 + m := ⟨n - 1, by omega⟩
  rw [runR_add]
  have h1 : runR t initRender 1 =
      { frameCount := 1, hasFinished := true, looping := false,
        captured := [], saved := true, warned := [] } := by
    rw [show runR t initRender 1 = renderTick t initRender from rfl]
    simp [renderTick, initRender, finishRendering, hd]
  rw [h1, runR_noLoop _ _ _ rfl]
  exact ⟨rfl, rfl, rfl⟩

/-- Witness for C6: the empty track of declared duration 0, one tick. -/
theorem c6_witness :
    ((⟨60, 0, []⟩ : Track).durationInFrames = 0 ∧ 1 ≤ 1) ∧
    ((runR ⟨60, 0, []⟩ initRender 1).hasFinished = true ∧
      (runR ⟨60, 0, []⟩ initRender 1).captured = [] ∧
      (runR ⟨60, 0, []⟩ initRender 1).saved = true) :=
  ⟨⟨by decide, by decide⟩,
    c6_zero_duration_finishes_first_tick ⟨60, 0, []⟩ 1 (by decide) (by decide)⟩

/-- Claim C7: a Render Session loaded with a track whose declared
`durationInFrames` exceeds the actual length of `data` renders every
available sample in order (tick `k + 1` submits `data[k]`), and on the next
tick — whose frame index has no sample — logs the anomaly for that index,
finishes early, and still finalizes the capture artifact. -/
theorem c7_truncated_track_finishes_early (t : Track)
    (h : t.data.length < t.durationInFrames) :
    (runR t initRender (t.data.length + 1)).captured = t.data.map drawVisuals ∧
    (runR t initRender (t.data.length + 1)).hasFinished = true ∧
    (runR t initRender (t.data.length + 1)).saved = true ∧
    (runR t initRender (t.data.length + 1)).warned = [t.data.length] := by
  rw [runR_add t initRender t.data.length 1]
  have h1 := runR_capture_ticks t t.data.length initRender rfl rfl
    (by simp [initRender]) (Nat.le_of_lt h)
  have h1' : runR t initRender t.data.length =
      { frameCount := t.data.length, hasFinished := false, looping := true,
        captured := t.data.map drawVisuals, saved := false, warned := [] } := by
    rw [h1]
    simp [initRender]
  rw [h1']
  have hno : ¬ t.durationInFrames ≤ t.data.length + 1 - 1 := by omega
  have hnone : t.data[t.data.length + 1 - 1]? = none :=
    List.getElem?_eq_none (by omega)
  rw [show runR t
      { frameCount := t.data.length, hasFinished := false, looping := true,
        captured := t.data.map drawVisuals, saved := false, warned := [] } 1 =
      renderTick t
      { frameCount := t.data.length, hasFinished := false, looping := true,
        captured := t.data.map drawVisuals, saved := false, warned := [] } from rfl]
  have hno2 : ¬ t.durationInFrames ≤ t.data.length := by omega
  simp [renderTick, finishRendering, hno, hnone, hno2]

/-- The truncated track of Scenario B: declared duration 2, one sample. -/
def shortTrack : Track := ⟨60, 2, [inDomainSample]⟩

/-- Witness for C7: on `shortTrack` the first tick captures the mapped
sample, the second warns about index 1 and finishes. -/
theorem c7_witness :
    shortTrack.data.length < shortTrack.durationInFrames ∧
    ((runR shortTrack initRender (shortTrack.data.length + 1)).captured
        = shortTrack.data.map drawVisuals ∧
      (runR shortTrack initRender (shortTrack.data.length + 1)).hasFinished = true ∧
      (runR shortTrack initRender (shortTrack.data.length + 1)).saved = true ∧
      (runR shortTrack initRender (shortTrack.data.length + 1)).warned
        = [shortTrack.data.length]) :=
  ⟨by decide, c7_truncated_track_finishes_early shortTrack (by decide)⟩
